import Mathlib

/-!
Shallow embedding of the report aggregation and export engine of
`src/pages/admin/CoursesReportPage.tsx`.

The page joins three read-only collections (courses, enrolments,
transactions) into per-course statistics, filters them by a status and a
provider selection, reduces both the unfiltered collections and the
filtered rows into summary totals, and serializes the filtered rows to
two delimited text formats.

Modelling conventions:
* Currency amounts are modelled as `Int` (signed whole amounts); the
  source uses JavaScript numbers and `Math.abs`, modelled by `|·|`.
* Optional fields (`startDate`, `endDate`, `Transaction.courseId`) are
  `Option String`, `none` standing for `undefined`/`null`.
* A JavaScript truthiness test on an optional string (`t.courseId` used
  as a boolean) is false exactly for `undefined` and for the empty
  string; `truthyOptStr` reproduces this.
* `[...new Set(xs)]` is order-preserving de-duplication keeping first
  occurrences (`dedupKeepFirst`); `.sort()` on strings is an ascending
  sort (`List.insertionSort (· ≤ ·)`).
-/

/-- A course record, as supplied by the data store.  Field types are
modelled from the spec's data-model table (the store itself is outside
the extracted source). -/
structure Course where
  id : String
  code : String
  name : String
  provider : String
  monthlyFee : Int
  isActive : Bool
  startDate : Option String
  endDate : Option String
deriving Repr, DecidableEq

/-- An enrolment record: `courseId` is a (required) foreign key into the
course collection. -/
structure Enrolment where
  id : String
  courseId : String
  isActive : Bool
deriving Repr, DecidableEq

/-- A transaction record: `courseId` is an optional foreign key,
`amount` is a signed amount. -/
structure Transaction where
  id : String
  courseId : Option String
  type : String
  status : String
  amount : Int
deriving Repr, DecidableEq

/-- Per-course derived statistics: every `Course` field plus the three
derived numbers (the source builds it with a `...course` spread). -/
structure CourseStats extends Course where
  totalEnrolments : Nat
  activeEnrolments : Nat
  totalRevenue : Int
deriving Repr, DecidableEq

/-- Overall summary totals over the unfiltered collections. -/
structure OverallStats where
  totalCourses : Nat
  activeCourses : Nat
  totalEnrolments : Nat
  activeEnrolments : Nat
  totalRevenue : Int
deriving Repr, DecidableEq

/-- JavaScript truthiness of an optional string: `undefined` and the
empty string are falsy, every other string is truthy.  This is the
meaning of the bare `t.courseId` conjunct in the source's overall
revenue filter. -/
def truthyOptStr : Option String → Bool
  | none => false
  | some s => s != ""

/-- One step of the aggregator (the body of `courses.map` in
`courseStats`, source lines 45-58): join enrolments and transactions
onto one course and decorate it with the three derived numbers. -/
def statsForCourse (enrolments : List Enrolment) (transactions : List Transaction)
    (course : Course) : CourseStats :=
  let courseEnrolments := enrolments.filter (fun e => e.courseId == course.id)
  let activeEnrolments := courseEnrolments.filter (fun e => e.isActive)
  let courseTransactions := transactions.filter (fun t => t.courseId == some course.id)
  let totalRevenue :=
    (courseTransactions.filter (fun t => t.type == "charge" && t.status == "completed")).foldl
      (fun sum t => sum + |t.amount|) 0
  { toCourse := course
    totalEnrolments := courseEnrolments.length
    activeEnrolments := activeEnrolments.length
    totalRevenue := totalRevenue }

/-- The aggregator `courseStats` (source lines 44-60): one `CourseStats`
per course, in the course collection's order. -/
def courseStats (courses : List Course) (enrolments : List Enrolment)
    (transactions : List Transaction) : List CourseStats :=
  courses.map (statsForCourse enrolments transactions)

/-- The filter predicate (body of `courseStats.filter` in
`filteredCourses`, source lines 64-69). -/
def matchesFilters (statusFilter providerFilter : String) (course : CourseStats) : Bool :=
  let matchesStatus := statusFilter == "all" ||
    (statusFilter == "active" && course.isActive) ||
    (statusFilter == "inactive" && !course.isActive)
  let matchesProvider := providerFilter == "all" || course.provider == providerFilter
  matchesStatus && matchesProvider

/-- `filteredCourses` (source lines 63-71): the statistics rows passing
both filter predicates, in order. -/
def filteredCourses (stats : List CourseStats) (statusFilter providerFilter : String) :
    List CourseStats :=
  stats.filter (matchesFilters statusFilter providerFilter)

/-- `overallStats` (source lines 74-89): reduction of the unfiltered
collections. -/
def overallStats (courses : List Course) (enrolments : List Enrolment)
    (transactions : List Transaction) : OverallStats :=
  let activeCourses := (courses.filter (fun c => c.isActive)).length
  let totalEnrolments := enrolments.length
  let activeEnrolments := (enrolments.filter (fun e => e.isActive)).length
  let totalRevenue :=
    (transactions.filter (fun t =>
        t.type == "charge" && t.status == "completed" && truthyOptStr t.courseId)).foldl
      (fun sum t => sum + |t.amount|) 0
  { totalCourses := courses.length
    activeCourses := activeCourses
    totalEnrolments := totalEnrolments
    activeEnrolments := activeEnrolments
    totalRevenue := totalRevenue }

/-- Order-preserving de-duplication keeping the first occurrence of each
element: the meaning of `[...new Set(xs)]` in the source. -/
def dedupKeepFirst : List String → List String
  | [] => []
  | a :: l => a :: dedupKeepFirst (l.filter (fun b => b != a))
termination_by l => l.length
decreasing_by
  simp only [List.length_cons]
  exact Nat.lt_succ_of_le (List.length_filter_le _ _)

/-- `providers` (source lines 38-41): the distinct provider values,
sorted ascending. -/
def providers (courses : List Course) : List String :=
  List.insertionSort (· ≤ ·) (dedupKeepFirst (courses.map (fun c => c.provider)))

/-- The summary-footer numbers (source line 318): row count, sum of
active enrolments and sum of revenue over the filtered rows. -/
def reportSummary (filtered : List CourseStats) : Nat × Nat × Int :=
  (filtered.length,
   filtered.foldl (fun sum c => sum + c.activeEnrolments) 0,
   filtered.foldl (fun sum c => sum + c.totalRevenue) 0)

/-- The export column headers (source lines 93-104). -/
def headers : List String :=
  ["Course Code", "Course Name", "Provider", "Monthly Fee", "Status",
   "Total Enrolments", "Active Enrolments", "Total Revenue", "Start Date", "End Date"]

/-- One export row (source lines 106-117): each cell already rendered to
the string the JavaScript template literal would produce. -/
def rowCells (course : CourseStats) : List String :=
  [course.code, course.name, course.provider, toString course.monthlyFee,
   if course.isActive then "Active" else "Inactive",
   toString course.totalEnrolments, toString course.activeEnrolments,
   toString course.totalRevenue,
   course.startDate.getD "", course.endDate.getD ""]

/-- The `csv` branch of `handleExport` (source lines 119-123): the header
cells are joined with commas as they are, each data-row cell is wrapped
in double quotes, rows are joined with newlines. -/
def csvContent (rows : List (List String)) : String :=
  String.intercalate "\n"
    ((String.intercalate "," headers) ::
      rows.map (fun row =>
        String.intercalate "," (row.map (fun cell => "\"" ++ cell ++ "\""))))

/-- The `excel` branch of `handleExport` (source lines 141-144): tab
joins, no quoting. -/
def excelContent (rows : List (List String)) : String :=
  String.intercalate "\n"
    ((String.intercalate "\t" headers) :: rows.map (String.intercalate "\t"))

/-- Everything the page derives from the three collections and the two
filter selections, mirroring the component body: the provider list, the
per-course statistics, the filtered rows, the overall totals, the
summary-footer numbers and the two export payloads. -/
structure ReportView where
  providers : List String
  courseStats : List CourseStats
  filteredCourses : List CourseStats
  overallStats : OverallStats
  summary : Nat × Nat × Int
  csvExport : String
  excelExport : String
deriving Repr, DecidableEq

/-- One render pass of the page for a given store snapshot and filter
selection. -/
def renderReport (courses : List Course) (enrolments : List Enrolment)
    (transactions : List Transaction) (statusFilter providerFilter : String) : ReportView :=
  let stats := courseStats courses enrolments transactions
  let filtered := filteredCourses stats statusFilter providerFilter
  { providers := providers courses
    courseStats := stats
    filteredCourses := filtered
    overallStats := overallStats courses enrolments transactions
    summary := reportSummary filtered
    csvExport := csvContent (filtered.map rowCells)
    excelExport := excelContent (filtered.map rowCells) }

/-! ### Shared helper lemmas -/

/-- A `reduce((sum, x) => sum + f x, a)` is `a` plus the sum of the
mapped list. -/
theorem foldl_add_map {α M : Type} [AddCommMonoid M] (f : α → M) :
    ∀ (l : List α) (a : M), l.foldl (fun s x => s + f x) a = a + (l.map f).sum
  | [], a => by simp
  | x :: l, a => by
    simp only [List.foldl_cons, List.map_cons, List.sum_cons, foldl_add_map f l (a + f x)]
    rw [add_assoc, add_left_comm]

/-! ### Sample records used in concrete scenarios -/

/-- A sample course (the CSV round-trip scenario's course). -/
def sampleCourse : Course :=
  { id := "c1", code := "C1", name := "Intro", provider := "Acme", monthlyFee := 100,
    isActive := true, startDate := none, endDate := none }

/-- A completed charge of amount `-75` against `sampleCourse`. -/
def negCharge : Transaction :=
  { id := "t1", courseId := some "c1", type := "charge", status := "completed", amount := -75 }

/-! ### Claim-side (spec-worded) definitions -/

/-- The revenue the spec ascribes to one course: one pass over the
transactions keeping those whose `courseId` equals the course's id, of
type `charge` and status `completed`, summing absolute amounts. -/
def specCourseRevenue (transactions : List Transaction) (course : Course) : Int :=
  ((transactions.filter (fun t =>
      t.courseId == some course.id && t.type == "charge" && t.status == "completed")).map
    (fun t => |t.amount|)).sum

/-- The revenue column of the aggregator's output, course by course, is
`specCourseRevenue` (shared workhorse behind the revenue claims). -/
theorem map_totalRevenue_eq_specCourseRevenue
    (courses : List Course) (enrolments : List Enrolment) (transactions : List Transaction) :
    (courseStats courses enrolments transactions).map (fun s => s.totalRevenue)
      = courses.map (specCourseRevenue transactions) := by
  simp only [courseStats, List.map_map]
  refine List.map_congr_left (fun c _ => ?_)
  show (statsForCourse enrolments transactions c).totalRevenue = specCourseRevenue transactions c
  simp only [statsForCourse, specCourseRevenue, List.filter_filter,
    foldl_add_map (fun t : Transaction => |t.amount|), zero_add]
  refine congrArg List.sum (congrArg (List.map _) (List.filter_congr fun t _ => ?_))
  cases t.courseId == some c.id <;> cases t.type == "charge" <;>
    cases t.status == "completed" <;> rfl

/-! ### C1 -/

/-- C1: each `CourseStats.totalRevenue` produced by the aggregator is
the sum of `|amount|` over the transactions carrying the course's id
with type `charge` and status `completed`; in particular a completed
charge with amount `-75` contributes `+75`. -/
theorem courseStats_totalRevenue_eq_specCourseRevenue
    (courses : List Course) (enrolments : List Enrolment) (transactions : List Transaction) :
    (courseStats courses enrolments transactions).map (fun s => s.totalRevenue)
      = courses.map (specCourseRevenue transactions)
    ∧ (courseStats [sampleCourse] [] [negCharge]).map (fun s => s.totalRevenue) = [75] :=
  ⟨map_totalRevenue_eq_specCourseRevenue courses enrolments transactions, by decide⟩

/-! ### C9 -/

/-- C9: the aggregator yields exactly one row per course, in order, and
each row carries the underlying course's fields unchanged. -/
theorem courseStats_preserves_courses
    (courses : List Course) (enrolments : List Enrolment) (transactions : List Transaction) :
    (courseStats courses enrolments transactions).map (fun s => s.toCourse) = courses
    ∧ (courseStats courses enrolments transactions).length = courses.length := by
  constructor
  · simp only [courseStats, List.map_map]
    have h : ∀ c ∈ courses,
        (CourseStats.toCourse ∘ statsForCourse enrolments transactions) c = id c :=
      fun c _ => rfl
    rw [List.map_congr_left h, List.map_id]
  · simp [courseStats]

/-! ### C2 -/

/-- Wrapping of one cell for the `csv` format: two double quotes around
the raw cell text, with no escaping of anything inside. -/
def quoteCell (cell : String) : String := "\"" ++ cell ++ "\""

/-- Modelled from the claim's words (not the source): a `csv` rendering
in which every cell, the header cells included, is wrapped in double
quotes. -/
def csvAllCellsQuoted (rows : List (List String)) : String :=
  String.intercalate "\n"
    ((String.intercalate "," (headers.map quoteCell)) ::
      rows.map (fun row => String.intercalate "," (row.map quoteCell)))

/-- C2 counterexample: the source's `csv` output does not quote the
header cells, so already on an empty row list it differs from the
all-cells-quoted rendering the claim describes. -/
theorem csvContent_ne_csvAllCellsQuoted : csvContent [] ≠ csvAllCellsQuoted [] := by
  decide

set_option maxRecDepth 8192 in
/-- C2 (amended): the header row is comma-joined with unquoted cells;
every data-row cell (numeric cells included) is wrapped in double
quotes with no escaping of embedded quote or comma characters; rows are
newline-joined.  The concrete conjuncts exhibit an embedded quote and
comma surviving verbatim, and the full output for one sample course. -/
theorem csvContent_quotes_data_cells_only (rows : List (List String)) :
    csvContent rows =
      String.intercalate "\n"
        ((String.intercalate "," headers) ::
          rows.map (fun row => String.intercalate "," (row.map quoteCell)))
    ∧ quoteCell "He said \"hi\", twice" = "\"He said \"hi\", twice\""
    ∧ csvContent [rowCells (statsForCourse [] [] sampleCourse)] =
        "Course Code,Course Name,Provider,Monthly Fee,Status,Total Enrolments," ++
        "Active Enrolments,Total Revenue,Start Date,End Date\n" ++
        "\"C1\",\"Intro\",\"Acme\",\"100\",\"Active\",\"0\",\"0\",\"0\",\"\",\"\"" :=
  ⟨rfl, rfl, by decide⟩

/-! ### C4 -/

/-- Modelled from the claim's words: the status predicate — `all`
passes everything, `active` requires `isActive`, `inactive` requires
`!isActive` (the filter selection offers no other value). -/
def statusMatchesSpec (statusFilter : String) (course : CourseStats) : Bool :=
  if statusFilter = "all" then true
  else if statusFilter = "active" then course.isActive
  else if statusFilter = "inactive" then !course.isActive
  else false

/-- Modelled from the claim's words: the provider predicate — `all`
passes everything, any other value requires exact string equality with
the course's provider. -/
def providerMatchesSpec (providerFilter : String) (course : CourseStats) : Bool :=
  if providerFilter = "all" then true else course.provider == providerFilter

/-- C4: for the three status selections the filter returns exactly the
in-order subsequence of rows satisfying the conjunction of the two
spec predicates. -/
theorem filteredCourses_eq_spec_filter (stats : List CourseStats)
    (statusFilter providerFilter : String)
    (h : statusFilter = "all" ∨ statusFilter = "active" ∨ statusFilter = "inactive") :
    filteredCourses stats statusFilter providerFilter =
      stats.filter (fun c => statusMatchesSpec statusFilter c && providerMatchesSpec providerFilter c)
    ∧ (filteredCourses stats statusFilter providerFilter).Sublist stats := by
  refine ⟨List.filter_congr fun c _ => ?_, List.filter_sublist stats⟩
  have hp : (providerFilter == "all" || c.provider == providerFilter)
      = providerMatchesSpec providerFilter c := by
    by_cases hpf : providerFilter = "all" <;> simp [providerMatchesSpec, hpf]
  rcases h with h | h | h <;> subst h <;>
    simp [matchesFilters, statusMatchesSpec, hp]

/-- C4 witness: the spec-filter description evaluated concretely. -/
theorem filteredCourses_eq_spec_filter_witness :
    filteredCourses [statsForCourse [] [] sampleCourse] "active" "Acme" =
      [statsForCourse [] [] sampleCourse].filter
        (fun c => statusMatchesSpec "active" c && providerMatchesSpec "Acme" c)
    ∧ (filteredCourses [statsForCourse [] [] sampleCourse] "active" "Acme").Sublist
        [statsForCourse [] [] sampleCourse] :=
  filteredCourses_eq_spec_filter [statsForCourse [] [] sampleCourse] "active" "Acme"
    (Or.inr (Or.inl rfl))

/-! ### C7 -/

/-- C7: filtering by status `active` together with a provider equals
filtering by status `active` alone and then by the provider alone. -/
theorem filteredCourses_active_provider_compose (stats : List CourseStats)
    (providerFilter : String) :
    filteredCourses stats "active" providerFilter =
      filteredCourses (filteredCourses stats "active" "all") "all" providerFilter := by
  unfold filteredCourses
  rw [List.filter_filter]
  refine List.filter_congr fun c _ => ?_
  simp only [matchesFilters]
  cases hb : c.isActive <;> cases hp : (c.provider == providerFilter) <;>
    cases ha : (providerFilter == "all") <;> simp [hb, hp, ha]

/-! ### C5 -/

/-- Modelled from the claim's words: the filtered-rows summary — row
count, sum of `activeEnrolments` and sum of `totalRevenue` over a given
row list. -/
def specSummary (rows : List CourseStats) : Nat × Nat × Int :=
  (rows.length,
   (rows.map (fun c => c.activeEnrolments)).sum,
   (rows.map (fun c => c.totalRevenue)).sum)

/-- C5: the page's summary footer is `specSummary` of exactly the rows
the filter returns; when no row matches, the filtered rows are the
empty list (a defined value, not an absence) and the summary is zero
rows, zero enrolments, zero revenue. -/
theorem reportSummary_eq_specSummary_of_filtered
    (courses : List Course) (enrolments : List Enrolment) (transactions : List Transaction)
    (statusFilter providerFilter : String) :
    (renderReport courses enrolments transactions statusFilter providerFilter).summary
      = specSummary
          ((renderReport courses enrolments transactions statusFilter providerFilter).filteredCourses)
    ∧ ((∀ c ∈ courseStats courses enrolments transactions,
          matchesFilters statusFilter providerFilter c = false) →
        (renderReport courses enrolments transactions statusFilter providerFilter).filteredCourses
            = []
          ∧ (renderReport courses enrolments transactions statusFilter providerFilter).summary
            = (0, 0, 0)) := by
  constructor
  · simp only [renderReport, reportSummary, specSummary,
      foldl_add_map (fun c : CourseStats => c.activeEnrolments),
      foldl_add_map (fun c : CourseStats => c.totalRevenue), zero_add]
  · intro hnone
    have hnil : filteredCourses (courseStats courses enrolments transactions)
        statusFilter providerFilter = [] := by
      simp only [filteredCourses, List.filter_eq_nil_iff]
      intro c hc
      simp [hnone c hc]
    refine ⟨by simpa [renderReport] using hnil, ?_⟩
    simp [renderReport, reportSummary, hnil]

/-- C5 witness: an `inactive` status filter over one active course
matches nothing, so the filtered list is `[]` and the summary is all
zeroes. -/
theorem reportSummary_eq_specSummary_of_filtered_witness :
    (renderReport [sampleCourse] [] [] "inactive" "all").filteredCourses = []
    ∧ (renderReport [sampleCourse] [] [] "inactive" "all").summary = (0, 0, 0) :=
  (reportSummary_eq_specSummary_of_filtered [sampleCourse] [] [] "inactive" "all").2 (by decide)

/-! ### C6 -/

/-- C6: every row the aggregator produces satisfies
`totalEnrolments ≥ activeEnrolments ≥ 0` and `totalRevenue ≥ 0`. -/
theorem courseStats_invariants
    (courses : List Course) (enrolments : List Enrolment) (transactions : List Transaction)
    (s : CourseStats) (hs : s ∈ courseStats courses enrolments transactions) :
    s.activeEnrolments ≤ s.totalEnrolments ∧ 0 ≤ s.activeEnrolments ∧ 0 ≤ s.totalRevenue := by
  obtain ⟨c, -, rfl⟩ := List.mem_map.mp hs
  refine ⟨List.length_filter_le _ _, Nat.zero_le _, ?_⟩
  show (0 : Int) ≤ (statsForCourse enrolments transactions c).totalRevenue
  simp only [statsForCourse, foldl_add_map (fun t : Transaction => |t.amount|), zero_add]
  exact List.sum_nonneg fun x hx => by
    obtain ⟨t, -, rfl⟩ := List.mem_map.mp hx
    exact abs_nonneg t.amount

/-- C6 witness: the invariants at a concrete aggregated row. -/
theorem courseStats_invariants_witness :
    (statsForCourse [] [negCharge] sampleCourse).activeEnrolments
        ≤ (statsForCourse [] [negCharge] sampleCourse).totalEnrolments
    ∧ 0 ≤ (statsForCourse [] [negCharge] sampleCourse).activeEnrolments
    ∧ 0 ≤ (statsForCourse [] [negCharge] sampleCourse).totalRevenue :=
  courseStats_invariants [sampleCourse] [] [negCharge]
    (statsForCourse [] [negCharge] sampleCourse) (by decide)

/-! ### C8 -/

/-- De-duplication does not change membership. -/
theorem mem_dedupKeepFirst (a : String) (l : List String) :
    a ∈ dedupKeepFirst l ↔ a ∈ l := by
  induction l using dedupKeepFirst.induct with
  | case1 => simp [dedupKeepFirst]
  | case2 b l ih =>
    rw [dedupKeepFirst]
    by_cases hab : a = b
    · subst hab; simp
    · simp only [List.mem_cons, ih, List.mem_filter, bne_iff_ne, ne_eq]
      constructor
      · rintro (h | ⟨h, -⟩) <;> [exact absurd h hab; exact Or.inr h]
      · rintro (h | h); · exact absurd h hab
        exact Or.inr ⟨h, hab⟩

/-- De-duplication leaves no duplicates. -/
theorem nodup_dedupKeepFirst (l : List String) : (dedupKeepFirst l).Nodup := by
  induction l using dedupKeepFirst.induct with
  | case1 => simp [dedupKeepFirst]
  | case2 b l ih =>
    rw [dedupKeepFirst]
    refine List.nodup_cons.mpr ⟨fun hmem => ?_, ih⟩
    have := (mem_dedupKeepFirst b _).mp hmem
    simp at this

/-- C8: the provider list is sorted ascending, duplicate-free, and
holds exactly the provider values occurring in the course collection. -/
theorem providers_sorted_nodup_complete (courses : List Course) :
    (providers courses).Sorted (· ≤ ·)
    ∧ (providers courses).Nodup
    ∧ ∀ p, p ∈ providers courses ↔ ∃ c ∈ courses, c.provider = p := by
  refine ⟨List.sorted_insertionSort _ _, ?_, fun p => ?_⟩
  · exact (List.perm_insertionSort _ _).nodup_iff.mpr (nodup_dedupKeepFirst _)
  · rw [providers, (List.perm_insertionSort _ _).mem_iff, mem_dedupKeepFirst,
      List.mem_map]

/-! ### C3 -/

/-- A second sample course: inactive, different provider. -/
def inactiveCourse : Course :=
  { id := "c2", code := "C2", name := "Basics", provider := "Beta", monthlyFee := 80,
    isActive := false, startDate := none, endDate := none }

/-- First active enrolment on `sampleCourse`. -/
def enrolmentA : Enrolment := { id := "e1", courseId := "c1", isActive := true }

/-- Second active enrolment on `sampleCourse`. -/
def enrolmentB : Enrolment := { id := "e2", courseId := "c1", isActive := true }

/-- A completed charge of `50` on `sampleCourse`. -/
def charge50 : Transaction :=
  { id := "t3", courseId := some "c1", type := "charge", status := "completed", amount := 50 }

/-- A completed charge of `10` whose `courseId` is present but the
empty string: non-null, yet falsy in JavaScript. -/
def emptyIdCharge : Transaction :=
  { id := "t4", courseId := some "", type := "charge", status := "completed", amount := 10 }

/-- Modelled from the claim's words: the overall reduction, with the
revenue filter requiring a *non-null* `courseId` (any present value). -/
def specOverallStatsNonNull (courses : List Course) (enrolments : List Enrolment)
    (transactions : List Transaction) : OverallStats :=
  { totalCourses := courses.length
    activeCourses := (courses.filter (fun c => c.isActive)).length
    totalEnrolments := enrolments.length
    activeEnrolments := (enrolments.filter (fun e => e.isActive)).length
    totalRevenue :=
      ((transactions.filter (fun t =>
          t.type == "charge" && t.status == "completed" && t.courseId.isSome)).map
        (fun t => |t.amount|)).sum }

/-- The amended overall reduction: the revenue filter requires a
`courseId` that is present *and* non-empty (JavaScript truthiness). -/
def specOverallStatsTruthy (courses : List Course) (enrolments : List Enrolment)
    (transactions : List Transaction) : OverallStats :=
  { totalCourses := courses.length
    activeCourses := (courses.filter (fun c => c.isActive)).length
    totalEnrolments := enrolments.length
    activeEnrolments := (enrolments.filter (fun e => e.isActive)).length
    totalRevenue :=
      ((transactions.filter (fun t =>
          t.type == "charge" && t.status == "completed"
            && (t.courseId.isSome && !(t.courseId == some "")))).map
        (fun t => |t.amount|)).sum }

/-- C3 counterexample: a completed charge whose `courseId` is the empty
string is non-null, so the claim counts its `10` toward revenue, but
the code's truthiness test drops it. -/
theorem overallStats_ne_specOverallStatsNonNull :
    overallStats [] [] [emptyIdCharge] ≠ specOverallStatsNonNull [] [] [emptyIdCharge]
    ∧ (overallStats [] [] [emptyIdCharge]).totalRevenue = 0
    ∧ (specOverallStatsNonNull [] [] [emptyIdCharge]).totalRevenue = 10 := by
  refine ⟨?_, by decide, by decide⟩
  decide

/-- C3 (amended): the page's overall totals equal the unfiltered
reduction whose revenue keeps completed charges with a present,
non-empty `courseId`; the totals do not depend on the filter selection;
and the two-course scenario yields `{2, 1, 2, 2, 50}`. -/
theorem overallStats_eq_spec_and_filter_independent
    (courses : List Course) (enrolments : List Enrolment) (transactions : List Transaction)
    (statusFilter providerFilter sf2 pf2 : String) :
    (renderReport courses enrolments transactions statusFilter providerFilter).overallStats
      = specOverallStatsTruthy courses enrolments transactions
    ∧ (renderReport courses enrolments transactions statusFilter providerFilter).overallStats
      = (renderReport courses enrolments transactions sf2 pf2).overallStats
    ∧ overallStats [sampleCourse, inactiveCourse] [enrolmentA, enrolmentB] [charge50]
      = { totalCourses := 2, activeCourses := 1, totalEnrolments := 2,
          activeEnrolments := 2, totalRevenue := 50 } := by
  refine ⟨?_, rfl, by decide⟩
  show overallStats courses enrolments transactions
    = specOverallStatsTruthy courses enrolments transactions
  have hrev : ∀ t : Transaction,
      (t.type == "charge" && t.status == "completed" && truthyOptStr t.courseId)
        = (t.type == "charge" && t.status == "completed"
            && (t.courseId.isSome && !(t.courseId == some ""))) := by
    intro t
    cases t.courseId <;> simp [truthyOptStr, bne]
  simp only [overallStats, specOverallStatsTruthy,
    foldl_add_map (fun t : Transaction => |t.amount|), zero_add,
    List.filter_congr (fun t _ => hrev t)]

/-! ### C10 helper lemmas -/

/-- Splitting a filtered sum along two mutually exclusive predicates. -/
theorem sum_map_filter_or_disjoint {α M : Type} [AddCommMonoid M] (f : α → M)
    (p q : α → Bool) (hdisj : ∀ x, p x = true → q x = false) :
    ∀ l : List α, ((l.filter (fun x => p x || q x)).map f).sum
      = ((l.filter p).map f).sum + ((l.filter q).map f).sum := by
  intro l
  induction l with
  | nil => simp
  | cons x l ih =>
    by_cases hp : p x = true
    · have hq := hdisj x hp
      simp [List.filter_cons, hp, hq, ih, add_assoc]
    · have hp2 : p x = false := by simpa using hp
      cases hq : q x <;>
        simp [List.filter_cons, hp2, hq, ih, add_left_comm, add_assoc]

/-- Summing `1` over a list counts its length. -/
theorem sum_map_one_eq_length {α : Type} :
    ∀ l : List α, (l.map (fun _ => (1 : Nat))).sum = l.length := by
  intro l
  induction l with
  | nil => rfl
  | cons x l ih => simp [ih, Nat.add_comm]

/-- Over a duplicate-free key list, adding up the per-key filtered sums
equals one filtered sum over "key occurs in the list". -/
theorem sum_over_distinct_keys {α β M : Type} [BEq β] [LawfulBEq β] [AddCommMonoid M]
    (key : α → β) (f : α → M) :
    ∀ ids : List β, ids.Nodup → ∀ l : List α,
      (ids.map (fun i => ((l.filter (fun x => key x == i)).map f).sum)).sum
        = ((l.filter (fun x => ids.contains (key x))).map f).sum := by
  intro ids
  induction ids with
  | nil => intro _ l; simp
  | cons i ids ih =>
    intro hnd l
    obtain ⟨hnotmem, hnd2⟩ := List.nodup_cons.mp hnd
    have hdisj : ∀ x, (key x == i) = true → ids.contains (key x) = false := by
      intro x hx
      have hk : key x = i := by simpa using hx
      rw [hk]
      simpa using hnotmem
    have hpred : ∀ x ∈ l, ((i :: ids).contains (key x))
        = ((key x == i) || ids.contains (key x)) := fun x _ => List.contains_cons
    rw [List.map_cons, List.sum_cons, ih hnd2 l, List.filter_congr hpred,
      sum_map_filter_or_disjoint f _ _ hdisj l]

/-- Filtered sums of a nonnegative function grow with the predicate. -/
theorem sum_map_filter_le {α : Type} (f : α → Int) (hf : ∀ x, 0 ≤ f x)
    (p q : α → Bool) (himp : ∀ x, p x = true → q x = true) :
    ∀ l : List α, ((l.filter p).map f).sum ≤ ((l.filter q).map f).sum := by
  intro l
  induction l with
  | nil => simp
  | cons x l ih =>
    by_cases hp : p x = true
    · have hq := himp x hp
      simp only [List.filter_cons, hp, hq, if_true, List.map_cons, List.sum_cons]
      exact add_le_add_left ih (f x)
    · have hp2 : p x = false := by simpa using hp
      cases hq : q x
      · simp only [List.filter_cons, hp2, hq]
        simpa using ih
      · simp only [List.filter_cons, hp2, hq, if_true, if_false, List.map_cons,
          List.sum_cons]
        exact le_trans ih (le_add_of_nonneg_left (hf x))

/-! ### C10 -/

/-- A course whose id is the empty string — type-valid, but falsy in
JavaScript. -/
def emptyIdCourse : Course :=
  { id := "", code := "C0", name := "Ghost", provider := "Acme", monthlyFee := 0,
    isActive := true, startDate := none, endDate := none }

/-- C10 counterexample: with one course whose id is `""` (pairwise
distinct trivially) and one completed charge of `10` carrying
`courseId = some ""`, the per-course rows book `10` of revenue while the
overall reduction books `0` (the truthiness test drops the transaction),
so the claimed inequality — and with it the claimed equality, whose
extra hypothesis also holds here — fails. -/
theorem courseStats_sum_revenue_gt_overall :
    ([emptyIdCourse].map (fun c => c.id)).Nodup
    ∧ ((courseStats [emptyIdCourse] [] [emptyIdCharge]).map (fun s => s.totalRevenue)).sum = 10
    ∧ (overallStats [emptyIdCourse] [] [emptyIdCharge]).totalRevenue = 0
    ∧ ¬(((courseStats [emptyIdCourse] [] [emptyIdCharge]).map (fun s => s.totalRevenue)).sum
        ≤ (overallStats [emptyIdCourse] [] [emptyIdCharge]).totalRevenue) := by
  refine ⟨by decide, by decide, by decide, by decide⟩

/-- C10 (amended): with pairwise-distinct course ids, the per-course
enrolment counts sum to at most the overall enrolment count, with
equality when every enrolment references an existing course; and when
course ids are additionally non-empty, the per-course revenues sum to
at most the overall revenue, with equality when every completed
charge's present `courseId` is the id of some course. -/
theorem courseStats_sums_vs_overallStats
    (courses : List Course) (enrolments : List Enrolment) (transactions : List Transaction)
    (hids : (courses.map (fun c => c.id)).Nodup) :
    (((courseStats courses enrolments transactions).map (fun s => s.totalEnrolments)).sum
        ≤ (overallStats courses enrolments transactions).totalEnrolments
      ∧ ((∀ e ∈ enrolments, e.courseId ∈ courses.map (fun c => c.id)) →
          ((courseStats courses enrolments transactions).map (fun s => s.totalEnrolments)).sum
            = (overallStats courses enrolments transactions).totalEnrolments))
    ∧ ((∀ c ∈ courses, c.id ≠ "") →
        (((courseStats courses enrolments transactions).map (fun s => s.totalRevenue)).sum
            ≤ (overallStats courses enrolments transactions).totalRevenue
          ∧ ((∀ t ∈ transactions, t.type = "charge" → t.status = "completed" →
                ∀ v, t.courseId = some v → v ∈ courses.map (fun c => c.id)) →
              ((courseStats courses enrolments transactions).map (fun s => s.totalRevenue)).sum
                = (overallStats courses enrolments transactions).totalRevenue))) := by
  constructor
  · -- enrolment counts
    have hmapE : (courseStats courses enrolments transactions).map (fun s => s.totalEnrolments)
        = (courses.map (fun c => c.id)).map
            (fun i => ((enrolments.filter (fun e => e.courseId == i)).map
              (fun _ => (1 : Nat))).sum) := by
      simp only [courseStats, List.map_map]
      exact List.map_congr_left fun c _ => by
        show (statsForCourse enrolments transactions c).totalEnrolments
            = ((enrolments.filter (fun e => e.courseId == c.id)).map (fun _ => (1 : Nat))).sum
        rw [sum_map_one_eq_length]
        rfl
    have hE := sum_over_distinct_keys (fun e : Enrolment => e.courseId)
      (fun _ => (1 : Nat)) (courses.map (fun c => c.id)) hids enrolments
    rw [hmapE, hE, sum_map_one_eq_length]
    constructor
    · show _ ≤ enrolments.length
      exact List.length_filter_le _ _
    · intro hall
      have : enrolments.filter
          (fun e => (courses.map (fun c => c.id)).contains e.courseId) = enrolments :=
        List.filter_eq_self.mpr fun e he => by simpa using hall e he
      rw [this]
      rfl
  · -- revenues
    intro hne
    have hqR : ∀ c : Course, specCourseRevenue transactions c
        = (((transactions.filter (fun t => t.type == "charge" && t.status == "completed")).filter
              (fun t => t.courseId == some c.id)).map (fun t => |t.amount|)).sum := by
      intro c
      rw [List.filter_filter]
      show ((transactions.filter (fun t =>
          t.courseId == some c.id && t.type == "charge" && t.status == "completed")).map
            (fun t => |t.amount|)).sum = _
      refine congrArg List.sum (congrArg (List.map _) (List.filter_congr fun t _ => ?_))
      cases t.courseId == some c.id <;> cases t.type == "charge" <;>
        cases t.status == "completed" <;> rfl
    have hmapR : (courseStats courses enrolments transactions).map (fun s => s.totalRevenue)
        = (courses.map (fun c => some c.id)).map
            (fun i => (((transactions.filter (fun t =>
                t.type == "charge" && t.status == "completed")).filter
                  (fun t => t.courseId == i)).map (fun t => |t.amount|)).sum) := by
      rw [map_totalRevenue_eq_specCourseRevenue]
      simp only [List.map_map]
      exact List.map_congr_left fun c _ => hqR c
    have hnodupSome : (courses.map (fun c => some c.id)).Nodup := by
      have hms : courses.map (fun c => some c.id) = (courses.map (fun c => c.id)).map some := by
        simp [List.map_map]
      rw [hms]
      exact hids.map (Option.some_injective String)
    have hR := sum_over_distinct_keys (fun t : Transaction => t.courseId)
      (fun t => |t.amount|) (courses.map (fun c => some c.id)) hnodupSome
      (transactions.filter (fun t => t.type == "charge" && t.status == "completed"))
    have hover : (overallStats courses enrolments transactions).totalRevenue
        = (((transactions.filter (fun t => t.type == "charge" && t.status == "completed")).filter
              (fun t => truthyOptStr t.courseId)).map (fun t => |t.amount|)).sum := by
      show (transactions.filter (fun t =>
          t.type == "charge" && t.status == "completed" && truthyOptStr t.courseId)).foldl
            (fun sum t => sum + |t.amount|) 0 = _
      rw [foldl_add_map (fun t : Transaction => |t.amount|), zero_add, List.filter_filter]
      refine congrArg List.sum (congrArg (List.map _) (List.filter_congr fun t _ => ?_))
      cases truthyOptStr t.courseId <;> cases t.type == "charge" <;>
        cases t.status == "completed" <;> rfl
    have himp : ∀ t : Transaction,
        ((courses.map (fun c => some c.id)).contains t.courseId) = true →
          truthyOptStr t.courseId = true := by
      intro t ht
      have hmem : t.courseId ∈ courses.map (fun c => some c.id) := by simpa using ht
      obtain ⟨c, hc, hcid⟩ := List.mem_map.mp hmem
      rw [← hcid]
      have hcne := hne c hc
      simp [truthyOptStr, hcne]
    constructor
    · rw [hmapR, hR, hover]
      exact sum_map_filter_le (fun t => |t.amount|) (fun t => abs_nonneg t.amount)
        _ _ himp _
    · intro hcomplete
      rw [hmapR, hR, hover]
      refine congrArg List.sum (congrArg (List.map _) (List.filter_congr fun t htq => ?_))
      obtain ⟨htmem, htcc⟩ := List.mem_filter.mp htq
      have hcc : t.type = "charge" ∧ t.status = "completed" := by simpa using htcc
      refine Bool.eq_iff_iff.mpr ⟨himp t, fun h => ?_⟩
      cases hcid : t.courseId with
      | none => rw [hcid] at h; simp [truthyOptStr] at h
      | some v =>
        have hv : v ∈ courses.map (fun c => c.id) :=
          hcomplete t htmem hcc.1 hcc.2 v hcid
        obtain ⟨c, hc, hcv⟩ := List.mem_map.mp hv
        have hsome : some v ∈ courses.map (fun c => some c.id) :=
          List.mem_map.mpr ⟨c, hc, by rw [hcv]⟩
        simpa using hsome

/-- C10 witness: the two-course scenario, where every enrolment and
every completed charge references an existing, non-empty course id, so
both sums agree with the overall totals. -/
theorem courseStats_sums_vs_overallStats_witness :
    ((courseStats [sampleCourse, inactiveCourse] [enrolmentA, enrolmentB] [charge50]).map
        (fun s => s.totalEnrolments)).sum
      = (overallStats [sampleCourse, inactiveCourse] [enrolmentA, enrolmentB]
          [charge50]).totalEnrolments
    ∧ ((courseStats [sampleCourse, inactiveCourse] [enrolmentA, enrolmentB] [charge50]).map
        (fun s => s.totalRevenue)).sum
      = (overallStats [sampleCourse, inactiveCourse] [enrolmentA, enrolmentB]
          [charge50]).totalRevenue :=
  ⟨(courseStats_sums_vs_overallStats [sampleCourse, inactiveCourse]
      [enrolmentA, enrolmentB] [charge50] (by decide)).1.2 (by decide),
   ((courseStats_sums_vs_overallStats [sampleCourse, inactiveCourse]
      [enrolmentA, enrolmentB] [charge50] (by decide)).2 (by decide)).2 (by decide)⟩
